import Mathlib

/-!
Verification of the go-sockaddr core: the IPv4 address value type with its
derived-address and argument-builder operations (src/unnamed/part_000), and
the interface-address collection pipeline of src/ifaddrs.go (RFC filtering,
de-duplication, and the default-route output parsing).

Machine integers (Go uint32 / uint16 / uint64) are modelled as Nat, with an
explicit `% 4294967296` exactly where Go's uint32 arithmetic can wrap.
Go strings are modelled as Lean String (a wrapper around List Char).
-/

namespace Sockaddr

/-- Contiguous IPv4 network mask with `n` leading one bits (`n ≤ 32`),
as a 32-bit value: for example `onesMask 24 = 0xffffff00`. -/
def onesMask (n : Nat) : Nat := 4294967296 - 2 ^ (32 - n)

/-- IPv4HostMask from the source: the /32 mask 255.255.255.255. -/
def IPv4HostMask : Nat := 4294967295

/-- Models Go's bitwise complement `^m` on a uint32 mask
(Go defines `^m` as `m XOR 0xffffffff` for uint32). -/
def compl32 (m : Nat) : Nat := 4294967295 ^^^ m

/-- Models `net.IPMask.Size` for a 4-byte mask: the count of leading one
bits when the 32-bit value is a contiguous run of ones followed by zeros,
and 0 when the mask is not of that form (Go returns `(0, 0)` then). -/
def maskOnes (m : Nat) : Nat :=
  (((List.range 33).find? fun n => m % 4294967296 == onesMask n).getD 0)

/-- True when the 32-bit value is a contiguous network mask; mirrors the
`Size` validity check of `net.IPMask`. -/
def isContiguousMask (m : Nat) : Bool :=
  (List.range 33).any fun n => m % 4294967296 == onesMask n

/-- IPv4Addr from src/unnamed/part_000: a 32-bit address, a 32-bit network
mask and a port (0 = unset). -/
structure IPv4Addr where
  Address : Nat
  Mask : Nat
  Port : Nat
deriving DecidableEq

/-- NetworkAddress from the source: `Address AND Mask`. -/
def IPv4Addr.NetworkAddress (ipv4 : IPv4Addr) : Nat :=
  ipv4.Address &&& ipv4.Mask

/-- BroadcastAddress from the source: `Address AND Mask OR NOT Mask`. -/
def IPv4Addr.BroadcastAddress (ipv4 : IPv4Addr) : Nat :=
  (ipv4.Address &&& ipv4.Mask) ||| compl32 ipv4.Mask

/-- Maskbits from the source: the number of network mask bits, via
`net.IPMask.Size` (0 for a non-contiguous mask). -/
def IPv4Addr.Maskbits (ipv4 : IPv4Addr) : Nat := maskOnes ipv4.Mask

/-- Broadcast from the source: the broadcast address of the network, with
the mask forced to /32 and the port left at Go's zero value. -/
def IPv4Addr.Broadcast (ipv4 : IPv4Addr) : IPv4Addr :=
  { Address := ipv4.BroadcastAddress, Mask := IPv4HostMask, Port := 0 }

/-- FirstUsable from the source: the network address, incremented (as a
uint32) unless the mask is /31 or /32; mask forced to /32, port 0. -/
def IPv4Addr.FirstUsable (ipv4 : IPv4Addr) : IPv4Addr :=
  let addr := ipv4.NetworkAddress
  let addr2 := if ipv4.Maskbits < 31 then (addr + 1) % 4294967296 else addr
  { Address := addr2, Mask := IPv4HostMask, Port := 0 }

/-- LastUsable from the source: the broadcast address, decremented (as a
uint32) unless the mask is /31 or /32; mask forced to /32, port 0. -/
def IPv4Addr.LastUsable (ipv4 : IPv4Addr) : IPv4Addr :=
  let addr := ipv4.BroadcastAddress
  let addr2 := if ipv4.Maskbits < 31 then (addr + 4294967295) % 4294967296 else addr
  { Address := addr2, Mask := IPv4HostMask, Port := 0 }

/-- Host from the source: a copy of the address with its mask set to /32;
unlike the other derived values it keeps the receiver's port. -/
def IPv4Addr.Host (ipv4 : IPv4Addr) : IPv4Addr :=
  { Address := ipv4.Address, Mask := IPv4HostMask, Port := ipv4.Port }

/-- Network from the source: the network address with the original mask
(and Go's zero value for the port). -/
def IPv4Addr.Network (ipv4 : IPv4Addr) : IPv4Addr :=
  { Address := ipv4.NetworkAddress, Mask := ipv4.Mask, Port := 0 }

/-- Dotted-decimal rendering of a 32-bit value, big endian; models
`binary.BigEndian.PutUint32` followed by `net.IP.String()` (each byte is
the uint32 shifted and truncated to 8 bits). -/
def dottedQuad (v : Nat) : String :=
  Nat.repr ((v >>> 24) &&& 255) ++ "." ++ Nat.repr ((v >>> 16) &&& 255) ++ "."
    ++ Nat.repr ((v >>> 8) &&& 255) ++ "." ++ Nat.repr (v &&& 255)

/-- NetIP().String() from the source: the address in dotted decimal. -/
def IPv4Addr.NetIPString (ipv4 : IPv4Addr) : String := dottedQuad ipv4.Address

/-- Hexadecimal digits used by `net.IPMask.String`. -/
def hexChars : List Char := "0123456789abcdef".data

/-- One hexadecimal digit (`n < 16`). -/
def hexDigit (n : Nat) : Char := hexChars.getD n '0'

/-- Models `net.IPMask.String` on a 4-byte mask: the mask bytes as 8
lowercase hexadecimal digits. -/
def maskHexString (m : Nat) : String :=
  String.mk [hexDigit ((m >>> 28) &&& 15), hexDigit ((m >>> 24) &&& 15),
    hexDigit ((m >>> 20) &&& 15), hexDigit ((m >>> 16) &&& 15),
    hexDigit ((m >>> 12) &&& 15), hexDigit ((m >>> 8) &&& 15),
    hexDigit ((m >>> 4) &&& 15), hexDigit (m &&& 15)]

/-- NetIPNet().String() from the source: the network address (address AND
mask) in dotted decimal, a slash, then the mask: the prefix length in
decimal for a contiguous mask, else (per `net.IPNet.String`) the mask in
hexadecimal. -/
def IPv4Addr.NetIPNetString (ipv4 : IPv4Addr) : String :=
  dottedQuad ipv4.NetworkAddress ++ "/" ++
    (if isContiguousMask ipv4.Mask then Nat.repr (maskOnes ipv4.Mask)
     else maskHexString ipv4.Mask)

/-- String() from the source (named StringRep because `String` is taken in
Lean): "ip:port" when the port is set, else the bare "ip" for a /32, else
"ip/prefixlen". -/
def IPv4Addr.StringRep (ipv4 : IPv4Addr) : String :=
  if ipv4.Port ≠ 0 then ipv4.NetIPString ++ ":" ++ Nat.repr ipv4.Port
  else if ipv4.Maskbits = 32 then ipv4.NetIPString
  else ipv4.NetIPString ++ "/" ++ Nat.repr ipv4.Maskbits

/-- DialStreamArgs from the source: `("tcp4", "")` when the mask is not the
host mask or the port is 0, else `("tcp4", "host:port")`. -/
def IPv4Addr.DialStreamArgs (ipv4 : IPv4Addr) : String × String :=
  if ipv4.Mask ≠ IPv4HostMask ∨ ipv4.Port = 0 then ("tcp4", "")
  else ("tcp4", ipv4.NetIPString ++ ":" ++ Nat.repr ipv4.Port)

/-- DialPacketArgs from the source: as DialStreamArgs with "udp4". -/
def IPv4Addr.DialPacketArgs (ipv4 : IPv4Addr) : String × String :=
  if ipv4.Mask ≠ IPv4HostMask ∨ ipv4.Port = 0 then ("udp4", "")
  else ("udp4", ipv4.NetIPString ++ ":" ++ Nat.repr ipv4.Port)

/-- ListenStreamArgs from the source: `("tcp4", "")` when the mask is not
the host mask (the port is NOT checked), else `("tcp4", "host:port")`. -/
def IPv4Addr.ListenStreamArgs (ipv4 : IPv4Addr) : String × String :=
  if ipv4.Mask ≠ IPv4HostMask then ("tcp4", "")
  else ("tcp4", ipv4.NetIPString ++ ":" ++ Nat.repr ipv4.Port)

/-- ListenPacketArgs from the source: as ListenStreamArgs with "udp4". -/
def IPv4Addr.ListenPacketArgs (ipv4 : IPv4Addr) : String × String :=
  if ipv4.Mask ≠ IPv4HostMask then ("udp4", "")
  else ("udp4", ipv4.NetIPString ++ ":" ++ Nat.repr ipv4.Port)

/-- Modelled from the spec: IPv6Address, the same shape as IPv4 but with
128-bit address and mask (the IPv6 value type is not under src/). -/
structure IPv6Addr where
  Address : Nat
  Mask : Nat
  Port : Nat
deriving DecidableEq

/-- Modelled from the spec: the canonical string form of an IPv6 address;
the spec does not pin the textual format and no claim depends on it, so the
128-bit value is rendered in decimal. -/
def IPv6Addr.StringRep (ipv6 : IPv6Addr) : String := Nat.repr ipv6.Address

/-- Modelled from the spec: the bitmask-friendly address-type tags (the
type enum is not under src/); "IP" is the union IPv4 OR IPv6. -/
def TypeUnix : Nat := 1

/-- Modelled from the spec: the IPv4 type tag. -/
def TypeIPv4 : Nat := 2

/-- Modelled from the spec: the IPv6 type tag. -/
def TypeIPv6 : Nat := 4

/-- Modelled from the spec: the IP family union tag (IPv4 OR IPv6). -/
def TypeIP : Nat := 6

/-- Modelled from the spec: the polymorphic SockAddr sum over the three
concrete address kinds (the wrapper type is not under src/). -/
inductive SockAddr where
  | ipv4 (addr : IPv4Addr)
  | ipv6 (addr : IPv6Addr)
  | unixSock (path : String)
deriving DecidableEq

/-- Models the Type() dispatch: the tag of the active variant. -/
def SockAddr.typeOf : SockAddr → Nat
  | .ipv4 _ => TypeIPv4
  | .ipv6 _ => TypeIPv6
  | .unixSock _ => TypeUnix

/-- Models the String() dispatch over the SockAddr variants (a Unix socket
address renders as its path). -/
def sockAddrString : SockAddr → String
  | .ipv4 a => a.StringRep
  | .ipv6 a => a.StringRep
  | .unixSock p => p

/-- Equal from the source: false for a non-IPv4 type tag; otherwise the
port, the address value and the string form of the network (NetIPNet,
which bakes in the mask) must all agree. -/
def IPv4Addr.Equal (ipv4 : IPv4Addr) (sa : SockAddr) : Bool :=
  if sa.typeOf ≠ TypeIPv4 then false
  else
    match sa with
    | .ipv4 ipv4b =>
      if ipv4.Port ≠ ipv4b.Port then false
      else if ipv4.Address ≠ ipv4b.Address then false
      else if ipv4.NetIPNetString ≠ ipv4b.NetIPNetString then false
      else true
    | _ => false

/-- Modelled from the spec: one (address, interface) observation pair;
only the interface name of the interface metadata is carried, since no
claim touches the hardware flags (the IfAddr record type is not under
src/, only its uses are). -/
structure IfAddr where
  SockAddr : SockAddr
  Name : String
deriving DecidableEq

/-- Contiguous 128-bit mask with n leading one bits, for the IPv6 entries
of the registry. -/
def onesMask128 (n : Nat) : Nat :=
  340282366920938463463374607431768211456 - 2 ^ (128 - n)

/-- Modelled from the spec: one reserved-network registry entry, a
(network address, mask, address family) triple. -/
structure RFCNet where
  isIPv6 : Bool
  addr : Nat
  mask : Nat
deriving DecidableEq

/-- Modelled from the spec (4.2 Classify): membership of an address in one
registered network; an address is contained when its family matches and
its bits under the network mask equal the network address. -/
def RFCNet.ContainsSA (n : RFCNet) : SockAddr → Bool
  | .ipv4 a => !n.isIPv6 && (a.Address &&& n.mask == n.addr)
  | .ipv6 a => n.isIPv6 && (a.Address &&& n.mask == n.addr)
  | .unixSock _ => false

/-- An IPv4 registry entry from a network address and a prefix length. -/
def mkRFC4 (addr ones : Nat) : RFCNet := ⟨false, addr, onesMask ones⟩

/-- An IPv6 registry entry from a network address and a prefix length. -/
def mkRFC6 (addr ones : Nat) : RFCNet := ⟨true, addr, onesMask128 ones⟩

/-- Modelled from the spec: the RFC 6890 special-use networks, spanning
both address families (the rfcNetMap table is not under src/). -/
def rfc6890Nets : List RFCNet :=
  [mkRFC4 0x00000000 8, mkRFC4 0x0A000000 8, mkRFC4 0x64400000 10,
   mkRFC4 0x7F000000 8, mkRFC4 0xA9FE0000 16, mkRFC4 0xAC100000 12,
   mkRFC4 0xC0000000 24, mkRFC4 0xC0000200 24, mkRFC4 0xC0586300 24,
   mkRFC4 0xC0A80000 16, mkRFC4 0xC6120000 15, mkRFC4 0xC6336400 24,
   mkRFC4 0xCB007100 24, mkRFC4 0xF0000000 4, mkRFC4 0xFFFFFFFF 32,
   mkRFC6 1 128, mkRFC6 0 128,
   mkRFC6 0xfc000000000000000000000000000000 7,
   mkRFC6 0xfe800000000000000000000000000000 10,
   mkRFC6 0x20010db8000000000000000000000000 32]

/-- Modelled from the spec: the private-use networks of RFC 1918. -/
def rfc1918Nets : List RFCNet :=
  [mkRFC4 0x0A000000 8, mkRFC4 0xAC100000 12, mkRFC4 0xC0A80000 16]

/-- Modelled from the spec: the shared address space of RFC 6598. -/
def rfc6598Nets : List RFCNet := [mkRFC4 0x64400000 10]

/-- Modelled from the spec: the registry lookup by identifier; the claims
only need that well-known identifiers (1918, 6598, 6890) are present and
any other identifier is unsupported. -/
def rfcNetMap (rfc : Nat) : Option (List RFCNet) :=
  if rfc = 1918 then some rfc1918Nets
  else if rfc = 6598 then some rfc6598Nets
  else if rfc = 6890 then some rfc6890Nets
  else none

/-- IfByRFC from src/ifaddrs.go: an unsupported identifier is an error;
otherwise the input splits, in order, into the records contained in some
registered network and the rest (the Go loop breaks at the first
containing network, which only short-circuits the membership test). -/
def IfByRFC (inputRFC : Nat) (ifAddrs : List IfAddr) :
    Except String (List IfAddr × List IfAddr) :=
  match rfcNetMap inputRFC with
  | none => Except.error ("unsupported RFC " ++ Nat.repr inputRFC)
  | some rfcNets =>
    Except.ok
      (ifAddrs.filter (fun ifAddr => rfcNets.any fun n => n.ContainsSA ifAddr.SockAddr),
       ifAddrs.filter fun ifAddr => !(rfcNets.any fun n => n.ContainsSA ifAddr.SockAddr))

/-- Models strconv.ParseUint(s, 10, 64): the parsed value plus a success
flag; Go reports 0 with an error on malformed syntax and the maximum
uint64 with an error when the value overflows 64 bits. -/
def parseUint64 (s : String) : Nat × Bool :=
  if s.data = [] then (0, false)
  else if s.data.all (fun c => c.isDigit) then
    let v := s.data.foldl (fun acc c => acc * 10 + (c.toNat - 48)) 0
    if v ≤ 18446744073709551615 then (v, true) else (18446744073709551615, false)
  else (0, false)

/-- Splitting a character list on a separator character; models
strings.Split (an empty input yields one empty field). -/
def splitChar (c : Char) : List Char → List (List Char)
  | [] => [[]]
  | x :: xs =>
    match splitChar c xs with
    | [] => [[]]
    | r :: rs => if x = c then [] :: r :: rs else (x :: r) :: rs

/-- Models strings.Split on a Lean String. -/
def splitString (c : Char) (s : String) : List String :=
  (splitChar c s.data).map String.mk

/-- The "rfc" arm of ExcludeIfs from src/ifaddrs.go, looping over the
alternation-separated identifiers with the accumulated exclusions; note
the source's inverted error check: an identifier that PARSES successfully
is skipped (`continue` under `err == nil`), so only a malformed one (with
its error value) ever reaches IfByRFC. -/
def excludeIfsRFCLoop (inputIfAddrs : List IfAddr) :
    List String → List IfAddr → List IfAddr
  | [], acc => acc
  | rfcStr :: rest, acc =>
    let pu := parseUint64 rfcStr
    if pu.2 then excludeIfsRFCLoop inputIfAddrs rest acc
    else
      match IfByRFC pu.1 inputIfAddrs with
      | Except.error _ => excludeIfsRFCLoop inputIfAddrs rest acc
      | Except.ok mr => excludeIfsRFCLoop inputIfAddrs rest (acc ++ mr.2)

/-- ExcludeIfs from src/ifaddrs.go, restricted to its "rfc" selector arm
(the address/name/port/type arms delegate to Go's regexp engine and no
claim depends on them); the outer err of the source is never set on this
path — every assignment in the loop shadows it — so the accumulated list
is returned as is. -/
def ExcludeIfsRFC (selectorParam : String) (inputIfAddrs : List IfAddr) : List IfAddr :=
  excludeIfsRFCLoop inputIfAddrs (splitString ',' selectorParam) []

/-- Models strings.ToLower for the ASCII selector names used here. -/
def goToLower (s : String) : String := String.mk (s.data.map Char.toLower)

/-- Models the %+q quoting of a plain ASCII selector name (no escapes are
needed for the inputs considered). -/
def goQuote (s : String) : String := "\"" ++ s ++ "\""

/-- The per-record key of UniqueIfAddrsBy from src/ifaddrs.go: the address
string for "address", the interface name for "name", and otherwise a
sentinel string that depends only on the selector name. -/
def uniqueOut (attrName selectorName : String) (ifAddr : IfAddr) : String :=
  if attrName = "address" then sockAddrString ifAddr.SockAddr
  else if attrName = "name" then ifAddr.Name
  else "<unsupported method " ++ goQuote selectorName ++ ">"

/-- The loop of UniqueIfAddrsBy from src/ifaddrs.go: keep a record when
lastMatch is empty or differs from the record's key, else skip it (the
kept record's key becomes the new lastMatch). -/
def uniqueLoop (attrName selectorName : String) :
    String → List IfAddr → List IfAddr
  | _, [] => []
  | lastMatch, ifAddr :: rest =>
    let out := uniqueOut attrName selectorName ifAddr
    if lastMatch = "" ∨ lastMatch ≠ out then
      ifAddr :: uniqueLoop attrName selectorName out rest
    else uniqueLoop attrName selectorName lastMatch rest

/-- UniqueIfAddrsBy from src/ifaddrs.go. -/
def UniqueIfAddrsBy (selectorName : String) (inputIfAddrs : List IfAddr) : List IfAddr :=
  uniqueLoop (goToLower selectorName) selectorName "" inputIfAddrs

/-- The first position of a separator character: the characters before it
and the remainder after it, if any; models the scan of strings.SplitN. -/
def breakAtChar (c : Char) : List Char → Option (List Char × List Char)
  | [] => none
  | x :: xs =>
    if x = c then some ([], xs)
    else (breakAtChar c xs).map fun p => (x :: p.1, p.2)

/-- Models strings.SplitN(s, sep, n) for a single-character separator: at
most n substrings, the last one the unsplit remainder (n = 0 yields nil in
Go; the source always passes 5). -/
def splitNChar (c : Char) : Nat → List Char → List (List Char)
  | 0, _ => []
  | 1, cs => [cs]
  | n + 2, cs =>
    match breakAtChar c cs with
    | none => [cs]
    | some pq => pq.1 :: splitNChar c (n + 1) pq.2

/-- Go's whitespace set for strings.TrimSpace (the ASCII part; the inputs
considered contain no non-ASCII whitespace). -/
def isGoSpace (c : Char) : Bool :=
  c == ' ' || c == '\t' || c == '\n' || c == '\x0b' || c == '\x0c' || c == '\r'

/-- Models strings.TrimSpace. -/
def trimSpaceList (cs : List Char) : List Char :=
  ((cs.dropWhile isGoSpace).reverse.dropWhile isGoSpace).reverse

/-- One line of parseLinuxDefaultIfName from src/ifaddrs.go: split into at
most five space-separated fields; a line matches when it has five fields
beginning "default", "via", anything, "dev", and then the trimmed fifth
field (the unsplit remainder of the line) is returned. -/
def lineIfName (line : List Char) : Option (List Char) :=
  match splitNChar ' ' 5 line with
  | [k0, k1, _, k3, k4] =>
    if k0 = "default".data ∧ k1 = "via".data ∧ k3 = "dev".data then
      some (trimSpaceList k4)
    else none
  | _ => none

/-- The line loop of parseLinuxDefaultIfName: the first matching line
wins. -/
def firstIfName : List (List Char) → Option (List Char)
  | [] => none
  | l :: ls =>
    match lineIfName l with
    | some n => some n
    | none => firstIfName ls

/-- parseLinuxDefaultIfName from src/ifaddrs.go: scan the route(8) output
line by line and return the first match, else the fixed error. -/
def parseLinuxDefaultIfName (routeOut : String) : Except String String :=
  match firstIfName (splitChar '\n' routeOut.data) with
  | some n => Except.ok (String.mk n)
  | none => Except.error "No default interface found"

/-- A maskOnes value other than 0 pins the mask: the 32-bit value is the
contiguous mask with that many leading ones. -/
theorem maskOnes_eq_pos (m n : Nat) (h : maskOnes m = n) (hn : 0 < n) :
    m % 4294967296 = onesMask n := by
  unfold maskOnes at h
  cases hf : (List.range 33).find? (fun k => m % 4294967296 == onesMask k) with
  | none => rw [hf] at h; simp at h; omega
  | some k =>
    rw [hf] at h
    simp at h
    have hp := List.find?_some hf
    subst h
    simpa using hp

/-- Claim C3, corrected: for a /31 address, FirstUsable applies no +1 (its
address value is the network address, which is Network()'s address value)
and LastUsable is exactly Broadcast (no -1); the returned FirstUsable and
Network values themselves differ in their mask fields. -/
theorem slash31_first_last_usable (a : IPv4Addr) (h : a.Maskbits = 31) :
    a.FirstUsable.Address = a.Network.Address ∧ a.LastUsable = a.Broadcast := by
  constructor
  · simp [IPv4Addr.FirstUsable, IPv4Addr.Network, h]
  · simp [IPv4Addr.LastUsable, IPv4Addr.Broadcast, h]

/-- Claim C3, witness: the corrected statement evaluated at 10.0.0.0/31. -/
theorem slash31_first_last_usable_w :
    (IPv4Addr.FirstUsable ⟨167772160, 4294967294, 0⟩).Address
      = (IPv4Addr.Network ⟨167772160, 4294967294, 0⟩).Address ∧
    IPv4Addr.LastUsable ⟨167772160, 4294967294, 0⟩
      = IPv4Addr.Broadcast ⟨167772160, 4294967294, 0⟩ :=
  slash31_first_last_usable ⟨167772160, 4294967294, 0⟩ (by decide)

/-- Claim C3, counterexample: at 10.0.0.0/31 the mask bits are 31 yet
FirstUsable() is not Network(): FirstUsable carries the host mask /32 while
Network keeps the /31 mask. -/
theorem slash31_firstUsable_ne_network :
    IPv4Addr.Maskbits ⟨167772160, 4294967294, 0⟩ = 31 ∧
    IPv4Addr.FirstUsable ⟨167772160, 4294967294, 0⟩
      ≠ IPv4Addr.Network ⟨167772160, 4294967294, 0⟩ := by
  decide

/-- A 32-bit value whose computed mask bits are 32 is the host mask. -/
theorem maskOnes_32 (m : Nat) (hm : m < 4294967296) (h : maskOnes m = 32) :
    m = IPv4HostMask := by
  have h2 := maskOnes_eq_pos m 32 h (by omega)
  rw [Nat.mod_eq_of_lt hm] at h2
  simpa [onesMask, IPv4HostMask] using h2

/-- AND with the host mask is reduction modulo 2^32. -/
theorem and_hostMask (x : Nat) : x &&& 4294967295 = x % 4294967296 := by
  have h : (4294967295 : Nat) = 2 ^ 32 - 1 := by norm_num
  have h2 : (4294967296 : Nat) = 2 ^ 32 := by norm_num
  rw [h, h2, Nat.and_pow_two_sub_one_eq_mod]

/-- Claim C4, corrected: for a /32 address, FirstUsable and LastUsable are
always equal, and Host agrees with them exactly when the port is 0 (Host
keeps the receiver's port while FirstUsable and LastUsable zero it). -/
theorem slash32_usable_host (a : IPv4Addr) (hm : a.Mask < 4294967296)
    (h : a.Maskbits = 32) :
    a.FirstUsable = a.LastUsable ∧
      (a.Address < 4294967296 → a.Port = 0 → a.Host = a.FirstUsable) := by
  have hmask : a.Mask = IPv4HostMask := maskOnes_32 a.Mask hm h
  have hh : (IPv4HostMask : Nat) = 4294967295 := rfl
  have hmo : maskOnes 4294967295 = 32 := by decide
  constructor
  · simp [IPv4Addr.FirstUsable, IPv4Addr.LastUsable, IPv4Addr.NetworkAddress,
      IPv4Addr.BroadcastAddress, IPv4Addr.Maskbits, hmask, hh, compl32, hmo,
      Nat.xor_self, Nat.or_zero]
  · intro ha hp
    simp [IPv4Addr.Host, IPv4Addr.FirstUsable, IPv4Addr.NetworkAddress,
      IPv4Addr.Maskbits, hmask, hh, hp, hmo, and_hostMask, Nat.mod_eq_of_lt ha]

/-- Claim C4, witness: the corrected statement evaluated at 1.2.3.4/32 with
port 0. -/
theorem slash32_usable_host_w :
    IPv4Addr.FirstUsable ⟨16909060, 4294967295, 0⟩
      = IPv4Addr.LastUsable ⟨16909060, 4294967295, 0⟩ ∧
    IPv4Addr.Host ⟨16909060, 4294967295, 0⟩
      = IPv4Addr.FirstUsable ⟨16909060, 4294967295, 0⟩ := by
  have h := slash32_usable_host ⟨16909060, 4294967295, 0⟩ (by decide) (by decide)
  exact ⟨h.1, h.2 (by decide) rfl⟩

/-- Claim C4, counterexample: at 1.2.3.4:80 (mask /32, port 80) the mask
bits are 32 yet Host() differs from FirstUsable(), because Host preserves
the port 80 while FirstUsable returns port 0. -/
theorem slash32_host_ne_firstUsable :
    IPv4Addr.Maskbits ⟨16909060, 4294967295, 80⟩ = 32 ∧
    IPv4Addr.Host ⟨16909060, 4294967295, 80⟩
      ≠ IPv4Addr.FirstUsable ⟨16909060, 4294967295, 80⟩ := by
  decide

/-- Claim C10: Broadcast, FirstUsable and LastUsable always carry the host
mask and port 0; Host carries the host mask and the receiver's port. -/
theorem derived_single_address_mask_port (a : IPv4Addr) :
    (a.Broadcast.Mask = IPv4HostMask ∧ a.Broadcast.Port = 0) ∧
    (a.FirstUsable.Mask = IPv4HostMask ∧ a.FirstUsable.Port = 0) ∧
    (a.LastUsable.Mask = IPv4HostMask ∧ a.LastUsable.Port = 0) ∧
    (a.Host.Mask = IPv4HostMask ∧ a.Host.Port = a.Port) :=
  ⟨⟨rfl, rfl⟩, ⟨rfl, rfl⟩, ⟨rfl, rfl⟩, ⟨rfl, rfl⟩⟩

/-- Claim C7: String() yields "ip:port" whenever the port is set (the port
wins over the mask), the bare "ip" when the port is 0 and the mask is the
host mask, and "ip/prefixlen" when the port is 0 and the mask is not the
host mask. -/
theorem stringRep_spec (a : IPv4Addr) (hm : a.Mask < 4294967296) :
    (a.Port ≠ 0 → a.StringRep = a.NetIPString ++ ":" ++ Nat.repr a.Port) ∧
    (a.Port = 0 → a.Mask = IPv4HostMask → a.StringRep = a.NetIPString) ∧
    (a.Port = 0 → a.Mask ≠ IPv4HostMask →
      a.StringRep = a.NetIPString ++ "/" ++ Nat.repr a.Maskbits) := by
  refine ⟨fun hp => ?_, fun hp hh => ?_, fun hp hh => ?_⟩
  · simp [IPv4Addr.StringRep, hp]
  · have h32 : a.Maskbits = 32 := by
      simp only [IPv4Addr.Maskbits, hh]
      decide
    simp [IPv4Addr.StringRep, hp, h32]
  · have h32 : a.Maskbits ≠ 32 := fun hc => hh (maskOnes_32 a.Mask hm hc)
    simp [IPv4Addr.StringRep, hp, h32]

/-- Claim C7, witness: the characterization evaluated at 10.0.0.1/24 with
port 0 (the third case). -/
theorem stringRep_spec_w :
    IPv4Addr.StringRep ⟨167772161, 4294967040, 0⟩
      = IPv4Addr.NetIPString ⟨167772161, 4294967040, 0⟩ ++ "/"
        ++ Nat.repr (IPv4Addr.Maskbits ⟨167772161, 4294967040, 0⟩) :=
  (stringRep_spec ⟨167772161, 4294967040, 0⟩ (by decide)).2.2 rfl (by decide)

/-- Appending strings appends their character lists. -/
theorem data_append (s t : String) : (s ++ t).data = s.data ++ t.data := rfl

/-- Strings with the same character list are equal. -/
theorem string_eq_of_data {s t : String} (h : s.data = t.data) : s = t := by
  cases s; cases t; exact congrArg String.mk h

/-- A "host:port" string is never empty. -/
theorem hostPort_ne_empty (s t : String) : s ++ ":" ++ t ≠ "" := by
  intro h
  have hd := congrArg String.data h
  rw [data_append, data_append] at hd
  have h1 := (List.append_eq_nil.mp hd).1
  have h2 := (List.append_eq_nil.mp h1).2
  exact absurd h2 (by decide)

/-- Claim C5, corrected: all four builders always return their fixed
transport name; the Dial builders return an empty argument string exactly
when the mask is not the host mask or the port is 0, but the Listen
builders check only the mask (port 0 still yields "ip:0"). -/
theorem dial_listen_args_spec (a : IPv4Addr) :
    (a.DialStreamArgs.1 = "tcp4" ∧ a.DialPacketArgs.1 = "udp4" ∧
     a.ListenStreamArgs.1 = "tcp4" ∧ a.ListenPacketArgs.1 = "udp4") ∧
    (a.DialStreamArgs.2 = "" ↔ (a.Mask ≠ IPv4HostMask ∨ a.Port = 0)) ∧
    (a.DialPacketArgs.2 = "" ↔ (a.Mask ≠ IPv4HostMask ∨ a.Port = 0)) ∧
    (a.ListenStreamArgs.2 = "" ↔ a.Mask ≠ IPv4HostMask) ∧
    (a.ListenPacketArgs.2 = "" ↔ a.Mask ≠ IPv4HostMask) := by
  refine ⟨⟨?_, ?_, ?_, ?_⟩, ?_, ?_, ?_, ?_⟩
  · unfold IPv4Addr.DialStreamArgs; split <;> rfl
  · unfold IPv4Addr.DialPacketArgs; split <;> rfl
  · unfold IPv4Addr.ListenStreamArgs; split <;> rfl
  · unfold IPv4Addr.ListenPacketArgs; split <;> rfl
  · by_cases hc : a.Mask ≠ IPv4HostMask ∨ a.Port = 0
    · simp [IPv4Addr.DialStreamArgs, hc]
    · rw [IPv4Addr.DialStreamArgs, if_neg hc]
      exact iff_of_false (hostPort_ne_empty _ _) hc
  · by_cases hc : a.Mask ≠ IPv4HostMask ∨ a.Port = 0
    · simp [IPv4Addr.DialPacketArgs, hc]
    · rw [IPv4Addr.DialPacketArgs, if_neg hc]
      exact iff_of_false (hostPort_ne_empty _ _) hc
  · by_cases hc : a.Mask ≠ IPv4HostMask
    · simp [IPv4Addr.ListenStreamArgs, hc]
    · rw [IPv4Addr.ListenStreamArgs, if_neg hc]
      exact iff_of_false (hostPort_ne_empty _ _) hc
  · by_cases hc : a.Mask ≠ IPv4HostMask
    · simp [IPv4Addr.ListenPacketArgs, hc]
    · rw [IPv4Addr.ListenPacketArgs, if_neg hc]
      exact iff_of_false (hostPort_ne_empty _ _) hc

/-- Claim C5, counterexample: on 1.2.3.4 with host mask and port 0, the
claim demands an empty argument string, but ListenStreamArgs returns the
non-empty "1.2.3.4:0". -/
theorem listen_args_port_zero_nonempty :
    IPv4Addr.ListenStreamArgs ⟨16909060, 4294967295, 0⟩ = ("tcp4", "1.2.3.4:0") ∧
    ("1.2.3.4:0" : String) ≠ "" := by
  decide

set_option maxRecDepth 4096 in
/-- Decimal renderings below 256 never contain a slash. -/
theorem repr_no_slash_lt256 : ∀ n < 256, '/' ∉ (Nat.repr n).data := by decide

/-- A contiguous mask is recognized as contiguous. -/
theorem isContiguous_onesMask : ∀ n ≤ 32, isContiguousMask (onesMask n) = true := by decide

/-- maskOnes recovers the prefix length of a contiguous mask. -/
theorem maskOnes_onesMask : ∀ n ≤ 32, maskOnes (onesMask n) = n := by decide

/-- Decimal rendering is injective on prefix lengths. -/
theorem repr_inj_le32 : ∀ n1 ≤ 32, ∀ n2 ≤ 32, Nat.repr n1 = Nat.repr n2 → n1 = n2 := by
  decide

/-- Dotted-decimal renderings never contain a slash. -/
theorem dottedQuad_no_slash (v : Nat) : '/' ∉ (dottedQuad v).data := by
  have h1 := repr_no_slash_lt256 ((v >>> 24) &&& 255)
    (by have : (v >>> 24) &&& 255 ≤ 255 := Nat.and_le_right; omega)
  have h2 := repr_no_slash_lt256 ((v >>> 16) &&& 255)
    (by have : (v >>> 16) &&& 255 ≤ 255 := Nat.and_le_right; omega)
  have h3 := repr_no_slash_lt256 ((v >>> 8) &&& 255)
    (by have : (v >>> 8) &&& 255 ≤ 255 := Nat.and_le_right; omega)
  have h4 := repr_no_slash_lt256 (v &&& 255)
    (by have : v &&& 255 ≤ 255 := Nat.and_le_right; omega)
  intro hmem
  simp only [dottedQuad, data_append, List.mem_append] at hmem
  rcases hmem with ((((((hx | hx) | hx) | hx) | hx) | hx) | hx)
  · exact h1 hx
  · exact absurd hx (by decide)
  · exact h2 hx
  · exact absurd hx (by decide)
  · exact h3 hx
  · exact absurd hx (by decide)
  · exact h4 hx

/-- Splitting a character list at a unique slash is unambiguous. -/
theorem append_slash_inj : ∀ (p p2 q q2 : List Char), '/' ∉ p → '/' ∉ p2 →
    p ++ '/' :: q = p2 ++ '/' :: q2 → p = p2 ∧ q = q2 := by
  intro p
  induction p with
  | nil =>
    intro p2 q q2 hp hp2 h
    cases p2 with
    | nil => simpa using h
    | cons b bs =>
      rw [List.nil_append, List.cons_append] at h
      injection h with h1 h2
      rw [← h1] at hp2
      exact absurd (List.mem_cons_self _ _) hp2
  | cons a as ih =>
    intro p2 q q2 hp hp2 h
    cases p2 with
    | nil =>
      rw [List.cons_append, List.nil_append] at h
      injection h with h1 h2
      rw [h1] at hp
      exact absurd (List.mem_cons_self _ _) hp
    | cons b bs =>
      rw [List.cons_append, List.cons_append] at h
      injection h with h1 h2
      have hp' : '/' ∉ as := fun hx => hp (List.mem_cons_of_mem _ hx)
      have hp2' : '/' ∉ bs := fun hx => hp2 (List.mem_cons_of_mem _ hx)
      obtain ⟨e1, e2⟩ := ih bs q q2 hp' hp2' h2
      exact ⟨by rw [h1, e1], e2⟩

/-- Two IPv4Addrs with contiguous but different masks render different
NetIPNet strings (the prefix length after the slash differs). -/
theorem netIPNetString_mask_inj (a b : IPv4Addr) (n1 n2 : Nat)
    (h1 : n1 ≤ 32) (h2 : n2 ≤ 32)
    (ha : a.Mask = onesMask n1) (hb : b.Mask = onesMask n2)
    (hne : a.Mask ≠ b.Mask) : a.NetIPNetString ≠ b.NetIPNetString := by
  have hn : n1 ≠ n2 := fun he => hne (by rw [ha, hb, he])
  intro h
  have hca : isContiguousMask a.Mask = true := by
    rw [ha]; exact isContiguous_onesMask n1 h1
  have hcb : isContiguousMask b.Mask = true := by
    rw [hb]; exact isContiguous_onesMask n2 h2
  have hoa : maskOnes a.Mask = n1 := by rw [ha]; exact maskOnes_onesMask n1 h1
  have hob : maskOnes b.Mask = n2 := by rw [hb]; exact maskOnes_onesMask n2 h2
  rw [IPv4Addr.NetIPNetString, IPv4Addr.NetIPNetString, hca, hcb] at h
  simp only [if_pos, hoa, hob] at h
  have hd := congrArg String.data h
  rw [data_append, data_append, data_append, data_append] at hd
  have hsl : ("/" : String).data = ['/'] := rfl
  rw [hsl, List.append_assoc, List.append_assoc, List.singleton_append,
    List.singleton_append] at hd
  obtain ⟨-, hq⟩ := append_slash_inj _ _ _ _
    (dottedQuad_no_slash a.NetworkAddress) (dottedQuad_no_slash b.NetworkAddress) hd
  exact hn (repr_inj_le32 n1 h1 n2 h2 (string_eq_of_data hq))

/-- Claim C8: Equal is false whenever the other address's type tag is not
IPv4, and two IPv4 addresses with the same address value and port but
different (contiguous) masks are not Equal, because the string form of the
network bakes in the mask. -/
theorem equal_type_and_mask :
    (∀ (a : IPv4Addr) (sa : SockAddr), sa.typeOf ≠ TypeIPv4 → a.Equal sa = false) ∧
    (∀ (a b : IPv4Addr) (n1 n2 : Nat), n1 ≤ 32 → n2 ≤ 32 →
      a.Mask = onesMask n1 → b.Mask = onesMask n2 →
      a.Address = b.Address → a.Port = b.Port → a.Mask ≠ b.Mask →
      a.Equal (SockAddr.ipv4 b) = false) := by
  constructor
  · intro a sa hs
    unfold IPv4Addr.Equal
    rw [if_pos hs]
  · intro a b n1 n2 h1 h2 ha hb haddr hport hne
    have hs := netIPNetString_mask_inj a b n1 n2 h1 h2 ha hb hne
    simp [IPv4Addr.Equal, SockAddr.typeOf, TypeIPv4, haddr, hport, hs]

/-- Claim C8, witness: an IPv4 address is not Equal to a Unix socket
address, and 10.0.0.1/24 vs 10.0.0.1/32 (same address, same port) are not
Equal. -/
theorem equal_type_and_mask_w :
    IPv4Addr.Equal ⟨167772161, 4294967295, 0⟩ (SockAddr.unixSock "/tmp/sock") = false ∧
    IPv4Addr.Equal ⟨167772161, 4294967040, 0⟩
      (SockAddr.ipv4 ⟨167772161, 4294967295, 0⟩) = false := by
  constructor
  · exact equal_type_and_mask.1 _ _ (by decide)
  · exact equal_type_and_mask.2 ⟨167772161, 4294967040, 0⟩ ⟨167772161, 4294967295, 0⟩
      24 32 (by norm_num) (by norm_num) (by decide) (by decide) rfl rfl (by decide)

/-- Claim C2, code bug: on the known-good identifier "6890" the
exclude/rfc path returns the empty list (the inverted error check skips
every identifier that parses), while IfByRFC 6890 puts the non-member
8.8.8.8/32 in its remainder — the records exclude should have kept. -/
theorem excludeIfs_rfc_inverted_check :
    ExcludeIfsRFC "6890" [⟨SockAddr.ipv4 ⟨134744072, 4294967295, 0⟩, "eth0"⟩] = [] ∧
    IfByRFC 6890 [⟨SockAddr.ipv4 ⟨134744072, 4294967295, 0⟩, "eth0"⟩] =
      Except.ok ([], [⟨SockAddr.ipv4 ⟨134744072, 4294967295, 0⟩, "eth0"⟩]) :=
  ⟨rfl, rfl⟩

/-- The invalid-selector sentinel string is never empty. -/
theorem sentinel_ne_empty (sel : String) :
    "<unsupported method " ++ goQuote sel ++ ">" ≠ "" := by
  intro h
  have hd := congrArg String.data h
  rw [data_append, data_append] at hd
  have h1 := (List.append_eq_nil.mp hd).1
  have h2 := (List.append_eq_nil.mp h1).1
  exact absurd h2 (by decide)

/-- Once the sentinel is the lastMatch, every further record is skipped
(the sentinel is the same for every record of an invalid selector). -/
theorem uniqueLoop_sentinel (attr sel : String)
    (h1 : attr ≠ "address") (h2 : attr ≠ "name") :
    ∀ l : List IfAddr,
      uniqueLoop attr sel ("<unsupported method " ++ goQuote sel ++ ">") l = [] := by
  intro l
  induction l with
  | nil => rfl
  | cons a rest ih =>
    have ho : uniqueOut attr sel a = "<unsupported method " ++ goQuote sel ++ ">" := by
      rw [uniqueOut, if_neg h1, if_neg h2]
    simp only [uniqueLoop, ho]
    rw [if_neg fun hc => hc.elim (sentinel_ne_empty sel) fun hh => hh rfl]
    exact ih

/-- Claim C6, corrected: with a selector that (lowercased) is neither
"address" nor "name", every record receives the same sentinel key, so
UniqueIfAddrsBy collapses the input to its first element instead of
returning it unchanged. -/
theorem unique_invalid_selector_takes_one (sel : String) (input : List IfAddr)
    (h1 : goToLower sel ≠ "address") (h2 : goToLower sel ≠ "name") :
    UniqueIfAddrsBy sel input = input.take 1 := by
  cases input with
  | nil => rfl
  | cons a rest =>
    rw [UniqueIfAddrsBy]
    have ho : uniqueOut (goToLower sel) sel a
        = "<unsupported method " ++ goQuote sel ++ ">" := by
      rw [uniqueOut, if_neg h1, if_neg h2]
    simp only [uniqueLoop, ho]
    rw [if_pos (Or.inl trivial), uniqueLoop_sentinel (goToLower sel) sel h1 h2 rest]
    rfl

/-- Claim C6, witness: the corrected statement on a two-record list under
the unsupported selector "flags". -/
theorem unique_invalid_selector_takes_one_w :
    UniqueIfAddrsBy "flags"
      [⟨SockAddr.unixSock "/tmp/a", "lo"⟩, ⟨SockAddr.unixSock "/tmp/b", "lo"⟩]
      = List.take 1 [⟨SockAddr.unixSock "/tmp/a", "lo"⟩, ⟨SockAddr.unixSock "/tmp/b", "lo"⟩] :=
  unique_invalid_selector_takes_one "flags" _ (by decide) (by decide)

/-- Claim C6, counterexample: under the unsupported selector "bogus" a
two-record list is NOT returned unchanged (the second record is
collapsed into the first, whose sentinel key it shares). -/
theorem unique_invalid_selector_ne_input :
    UniqueIfAddrsBy "bogus"
      [⟨SockAddr.ipv4 ⟨1, 4294967295, 0⟩, "a"⟩, ⟨SockAddr.ipv4 ⟨2, 4294967295, 0⟩, "b"⟩]
      ≠ [⟨SockAddr.ipv4 ⟨1, 4294967295, 0⟩, "a"⟩, ⟨SockAddr.ipv4 ⟨2, 4294967295, 0⟩, "b"⟩] := by
  decide

/-- breakAtChar finds nothing when the separator does not occur. -/
theorem breakAtChar_not_mem (c : Char) :
    ∀ xs : List Char, c ∉ xs → breakAtChar c xs = none := by
  intro xs
  induction xs with
  | nil => intro _; rfl
  | cons x xs ih =>
    intro h
    rw [breakAtChar, if_neg fun he => h (by rw [← he]; exact List.mem_cons_self x xs),
      ih fun hx => h (List.mem_cons_of_mem _ hx)]
    rfl

/-- breakAtChar splits at the first separator occurrence. -/
theorem breakAtChar_append (c : Char) : ∀ (xs ys : List Char), c ∉ xs →
    breakAtChar c (xs ++ c :: ys) = some (xs, ys) := by
  intro xs
  induction xs with
  | nil => intro ys _; rw [List.nil_append, breakAtChar, if_pos rfl]
  | cons x xs ih =>
    intro ys h
    rw [List.cons_append, breakAtChar,
      if_neg fun he => h (by rw [← he]; exact List.mem_cons_self x xs),
      ih ys fun hx => h (List.mem_cons_of_mem _ hx)]
    rfl

/-- splitChar is the identity (one field) when the separator is absent. -/
theorem splitChar_not_mem (c : Char) :
    ∀ xs : List Char, c ∉ xs → splitChar c xs = [xs] := by
  intro xs
  induction xs with
  | nil => intro _; rfl
  | cons x xs ih =>
    intro h
    have hx : ¬ x = c := fun he => h (by rw [← he]; exact List.mem_cons_self x xs)
    simp only [splitChar, ih fun hm => h (List.mem_cons_of_mem _ hm)]
    rw [if_neg hx]

/-- A character distinct from a separator-free field and from a separator
is absent from the field, the separator and a tail it is absent from. -/
theorem not_mem_append_cons {c x : Char} {A B : List Char}
    (hA : c ∉ A) (hx : c ≠ x) (hB : c ∉ B) : c ∉ A ++ x :: B := by
  intro h
  rcases List.mem_append.mp h with h | h
  · exact hA h
  · rcases List.mem_cons.mp h with h | h
    · exact hx h
    · exact hB h

/-- One splitting step of splitNChar on a leading separator-free field. -/
theorem splitNChar_step (c : Char) (m : Nat) (xs ys : List Char) (h : c ∉ xs) :
    splitNChar c (m + 2) (xs ++ c :: ys) = xs :: splitNChar c (m + 1) ys := by
  rw [splitNChar, breakAtChar_append c xs ys h]

/-- The line loop reports nothing when no line matches. -/
theorem firstIfName_none : ∀ ls : List (List Char),
    (∀ l ∈ ls, lineIfName l = none) → firstIfName ls = none := by
  intro ls
  induction ls with
  | nil => intro _; rfl
  | cons l ls ih =>
    intro h
    rw [firstIfName, h l (List.mem_cons_self _ _),
      ih fun x hx => h x (List.mem_cons_of_mem _ hx)]

/-- Claim C9, corrected: a matching Linux route line yields the TrimSpace
of everything after the fourth field, which is the bare interface name
exactly when the line ends at the interface name (first conjunct); when no
line matches, the parser fails with "No default interface found" (second
conjunct). With trailing fields after the name, the returned string is not
the bare name (see the counterexample). -/
theorem parse_linux_ifname_spec :
    (∀ gw name : List Char,
      ' ' ∉ gw → ' ' ∉ name → '\n' ∉ gw → '\n' ∉ name →
      trimSpaceList name = name →
      parseLinuxDefaultIfName
        (String.mk ("default".data ++ (' ' :: ("via".data ++ (' ' :: (gw
          ++ (' ' :: ("dev".data ++ (' ' :: name))))))))) = Except.ok (String.mk name)) ∧
    (∀ routeOut : String,
      (∀ l ∈ splitChar '\n' routeOut.data, lineIfName l = none) →
      parseLinuxDefaultIfName routeOut = Except.error "No default interface found") := by
  constructor
  · intro gw name hg hn hg2 hn2 htrim
    have hnl : '\n' ∉ ("default".data ++ (' ' :: ("via".data ++ (' ' :: (gw
        ++ (' ' :: ("dev".data ++ (' ' :: name)))))))) :=
      not_mem_append_cons (by decide) (by decide)
        (not_mem_append_cons (by decide) (by decide)
          (not_mem_append_cons hg2 (by decide)
            (not_mem_append_cons (by decide) (by decide) hn2)))
    have hsc : splitChar '\n'
        (String.mk ("default".data ++ (' ' :: ("via".data ++ (' ' :: (gw
          ++ (' ' :: ("dev".data ++ (' ' :: name))))))))).data
        = [("default".data ++ (' ' :: ("via".data ++ (' ' :: (gw
          ++ (' ' :: ("dev".data ++ (' ' :: name))))))))] :=
      splitChar_not_mem '\n' _ hnl
    have hsplit : splitNChar ' ' 5 ("default".data ++ (' ' :: ("via".data ++ (' ' :: (gw
        ++ (' ' :: ("dev".data ++ (' ' :: name))))))))
        = ["default".data, "via".data, gw, "dev".data, name] := by
      rw [splitNChar_step ' ' 3 _ _ (by decide), splitNChar_step ' ' 2 _ _ (by decide),
        splitNChar_step ' ' 1 _ _ hg, splitNChar_step ' ' 0 _ _ (by decide)]
      rfl
    have hln : lineIfName ("default".data ++ (' ' :: ("via".data ++ (' ' :: (gw
        ++ (' ' :: ("dev".data ++ (' ' :: name)))))))) = some name := by
      simp only [lineIfName, hsplit]
      rw [if_pos (⟨trivial, trivial, trivial⟩ : True ∧ True ∧ True), htrim]
    rw [parseLinuxDefaultIfName, hsc, firstIfName, hln]
  · intro routeOut h
    rw [parseLinuxDefaultIfName, firstIfName_none _ h]

/-- Claim C9, witness: both conjuncts at concrete inputs — a minimal
matching line returns the bare name, and output with no matching line
fails with the fixed error. -/
theorem parse_linux_ifname_spec_w :
    parseLinuxDefaultIfName "default via 10.0.0.1 dev eth0" = Except.ok "eth0" ∧
    parseLinuxDefaultIfName "1.2.3.4 dev eth1" =
      Except.error "No default interface found" := by
  constructor
  · exact parse_linux_ifname_spec.1 "10.0.0.1".data "eth0".data (by decide) (by decide)
      (by decide) (by decide) (by decide)
  · exact parse_linux_ifname_spec.2 "1.2.3.4 dev eth1" (by decide)

/-- Claim C9, counterexample: a Linux route line with fields after the
interface name ("proto dhcp") makes the parser return "eth0 proto dhcp",
not the bare interface name "eth0" the claim promises. -/
theorem parse_linux_ifname_trailing_fields :
    parseLinuxDefaultIfName "default via 192.168.1.1 dev eth0 proto dhcp"
      = Except.ok "eth0 proto dhcp" ∧
    ("eth0 proto dhcp" : String) ≠ "eth0" :=
  ⟨rfl, by decide⟩

end Sockaddr
